import Mathlib

/-!
# Verification of the `ai-ready` code-health analyzer

Shallow embedding of the two analysis engines of the repository:

* the quality-score engine (`src/core/analyzer.ts`, `src/cli.ts`,
  `src/core/scanner.ts`): per-file banded sub-scores, a weighted overall
  score, worst-first recommendations, and a `--ci` exit gate;
* the dependency-risk engine (`src/analyzer.ts`): per-file risk facts,
  a `{low, medium, high}` classifier, per-file briefings, repo-wide
  action items, and a memoized import-graph cache.

External collaborators (the `@typescript-eslint` parser, the `madge`
graph provider, and the filesystem) are modelled as explicit environment
records; everything the analyzers compute from their answers is
transcribed from the TypeScript source.

Filesystem paths are modelled as lists of path segments (an absolute
POSIX path `/a/b/c.ts` is `["a", "b", "c.ts"]`); `path.dirname` is
`List.dropLast`, `path.basename` is the last segment, and the only use
of `..` inside `path.join` in the source (`join(dir, '..', 'tests', n)`)
is rendered as `dir.dropLast ++ ["tests", n]`, which is exactly POSIX
normalization for the directory paths involved.

JavaScript numbers are modelled exactly: every quantity the analyzers
compute is either an integer or a quotient of small integers, and on the
values that actually arise (sub-scores in the band set {0,10,40,70,100},
sums of file scores) each IEEE-754 double product, sum and quotient in
the source is exact, so `Math.round` of the double expression equals
rounding the exact rational, which is what the embedding computes.
-/

namespace AiReady

/-- A filesystem path as a list of segments (absolute, POSIX-style). -/
abbrev FsPath := List String

/-- Characters JavaScript `String.prototype.trim` removes (the code only
ever trims source text, where the relevant whitespace is spaces, tabs,
carriage returns and newlines). -/
def isJsSpace (c : Char) : Bool :=
  c = ' ' || c = '\n' || c = '\t' || c = '\r'

/-- `code.trim() === ""`: the file content is whitespace-only. -/
def isBlankStr (s : String) : Bool :=
  s.data.all isJsSpace

/-- Split a file name at the last dot, Node `path.extname` style:
`"foo.ts" ↦ ("foo", ".ts")`; a name with no dot, or whose only dot is
the leading character (`".bashrc"`), has extension `""`. -/
def splitExt (name : String) : String × String :=
  let cs := name.data
  match (List.range cs.length).filter
      (fun i => 0 < i ∧ cs.getD i ' ' = '.') |>.getLast? with
  | some i => (String.mk (cs.take i), String.mk (cs.drop i))
  | none => (name, "")

/-- Node `path.basename` on a slash-separated relative path string
(as used on the `madge` file ids in the briefing generator). -/
def jsBasename (s : String) : String :=
  String.mk ((s.data.reverse.takeWhile (fun c => c ≠ '/')).reverse)

/-- `l.filter(x => { if (seen.has(x)) return false; seen.add(x); return true })`:
keep the first occurrence of each element. -/
def dedupFirstAux : List String → List String → List String
  | _, [] => []
  | seen, x :: xs =>
    if x ∈ seen then dedupFirstAux seen xs
    else x :: dedupFirstAux (x :: seen) xs

/-- Deduplication keeping first occurrences, as in `generateActionItems`. -/
def dedupFirst (l : List String) : List String :=
  dedupFirstAux [] l

/-- Insert into a sorted list after all elements `y` with `le y x`;
folding this over a list is a stable sort. -/
def insertLE (le : α → α → Bool) (x : α) : List α → List α
  | [] => [x]
  | y :: ys => if le y x then y :: insertLE le x ys else x :: y :: ys

/-- Stable sort. JavaScript `Array.prototype.sort` is stable (required
since ES2019), and a stable sort under a total preorder has a unique
output, so this insertion sort computes exactly what the source's
`.sort(comparator)` calls compute. -/
def stableSort (le : α → α → Bool) (l : List α) : List α :=
  l.foldl (fun acc x => insertLE le x acc) []

/-! ## Score engine: `src/core/analyzer.ts` -/

namespace Score

/-- Facts the external source-fact extractor (`parseTypeScript` /
`parseJavaScript`) returns for one file: the line count of each detected
function, the import count, the comment line count and the total line
count.  Function names are never consumed by the analyzer, so only the
`lines` field of each function record is kept. -/
structure ParsedFacts where
  functions : List ℕ
  imports : ℕ
  commentLines : ℕ
  totalLines : ℕ

/-- The five per-axis sub-scores of one file. -/
structure Signals where
  functionLength : ℕ
  coupling : ℕ
  testCoverage : ℕ
  commentDensity : ℕ
  fileSize : ℕ
  deriving DecidableEq

/-- A relative source-file path: directory segments plus file name. -/
structure RelFile where
  dirs : List String
  name : String
  deriving DecidableEq

/-- `FileScore` of `src/core/analyzer.ts`; `signals` is absent exactly
on the unreadable-file fast path. -/
structure FileScore where
  path : RelFile
  score : ℕ
  issues : List String
  signals : Option Signals
  deriving DecidableEq

/-- `AnalysisResult` of `src/core/analyzer.ts`. -/
structure AnalysisResult where
  files : List FileScore
  overall : ℕ
  recommendations : List String
  deriving DecidableEq

/-- The environment of the score engine: the filesystem (readable file
contents, file existence) and the two external parser adapters. -/
structure Env where
  read : FsPath → Option String
  fsExists : FsPath → Bool
  parseTS : String → ParsedFacts
  parseJS : String → ParsedFacts

/-- `scoreFunctionLength` (src/core/analyzer.ts:25). -/
def scoreFunctionLength (avgLines : ℚ) : ℕ :=
  if avgLines > 50 then 0
  else if avgLines > 30 then 40
  else if avgLines > 20 then 70
  else 100

/-- `scoreCoupling` (src/core/analyzer.ts:32). -/
def scoreCoupling (imports : ℕ) : ℕ :=
  if imports > 8 then 0
  else if imports > 5 then 40
  else if imports > 3 then 70
  else 100

/-- The ordered candidate list probed by `scoreTestCoverage`
(src/core/analyzer.ts:39): sibling `.test`/`.spec` files, the two
`__tests__` patterns, then `tests/`/`test/` directories under the parent
of the file's directory, flat and directory-mirrored. -/
def scoreCandidates (filePath : RelFile) (baseDir : FsPath) : List FsPath :=
  let dir := baseDir ++ filePath.dirs
  let (base, ext) := splitExt filePath.name
  let parentDir := dir.dropLast
  let relDir := dir.getLastD ""
  [dir ++ [base ++ ".test" ++ ext],
   dir ++ [base ++ ".spec" ++ ext],
   dir ++ ["__tests__", base ++ ".test" ++ ext],
   dir ++ ["__tests__", base ++ ".spec" ++ ext],
   parentDir ++ ["tests", base ++ ".test" ++ ext],
   parentDir ++ ["test", base ++ ".test" ++ ext],
   parentDir ++ ["tests", relDir, base ++ ".test" ++ ext],
   parentDir ++ ["test", relDir, base ++ ".test" ++ ext]]

/-- `scoreTestCoverage` (src/core/analyzer.ts:39): 100 on the first
existing candidate, 0 when none exists. -/
def scoreTestCoverage (fsExists : FsPath → Bool) (filePath : RelFile)
    (baseDir : FsPath) : ℕ :=
  match (scoreCandidates filePath baseDir).find? fsExists with
  | some _ => 100
  | none => 0

/-- `scoreCommentDensity` (src/core/analyzer.ts:68); the ratio is exact
(the double quotient is within half an ulp of the rational, and the
band thresholds are never hit that closely at realistic line counts). -/
def scoreCommentDensity (commentLines totalLines : ℕ) : ℕ :=
  if totalLines = 0 then 100
  else
    let ratio : ℚ := (commentLines : ℚ) / (totalLines : ℚ)
    if ratio > 0.10 then 100
    else if ratio > 0.05 then 70
    else if ratio > 0.01 then 40
    else 10

/-- `scoreFileSize` (src/core/analyzer.ts:77). -/
def scoreFileSize (totalLines : ℕ) : ℕ :=
  if totalLines > 500 then 0
  else if totalLines > 300 then 40
  else if totalLines > 150 then 70
  else 100

/-- `getTopIssue` (src/core/analyzer.ts:84): stable ascending sort of
the five axes in fixed declaration order, then the lowest axis; clean
marker when the lowest score is at least 70. -/
def getTopIssue (s : Signals) : String :=
  let issues : List (String × ℕ) :=
    [("function too long", s.functionLength),
     ("high coupling", s.coupling),
     ("no tests", s.testCoverage),
     ("low comments", s.commentDensity),
     ("file too large", s.fileSize)]
  let sorted := stableSort (fun a b => a.2 ≤ b.2) issues
  match sorted with
  | [] => ""
  | t :: _ => if t.2 ≥ 70 then "✓ AI-ready" else t.1

/-- `getFix` (src/core/analyzer.ts:98); its `signals` parameter is only
null-checked in the source and the analyzer always passes a present
record, so it is dropped here. -/
def getFix (issue : String) : String :=
  if issue = "✓ AI-ready" then ""
  else if issue = "function too long" then "split into smaller functions"
  else if issue = "high coupling" then "extract shared utils"
  else if issue = "no tests" then "add test file"
  else if issue = "low comments" then "add doc comments"
  else if issue = "file too large" then "split into modules"
  else ""

/-- `Math.round(fl*0.3 + cp*0.25 + tc*0.25 + cd*0.1 + fs*0.1)` rendered
over the common denominator 20.  On sub-scores from the band set every
double product and partial sum in the source expression is exact, and
`Math.round` rounds half-values toward positive infinity, so the double
computation equals `⌊(2*(3*fl+cd+fs) + 5*(cp+tc))/20 + 1/2⌋`, which is
this natural-number division. -/
def overallOf (fl cp tc cd fs : ℕ) : ℕ :=
  (2 * (3 * fl + cd + fs) + 5 * (cp + tc) + 10) / 20

/-- `Math.round` on a nonnegative exact value: round half up. -/
def jsRound (q : ℚ) : ℤ := ⌊q + 1/2⌋

/-- `Math.round(sum/len)` for the repo aggregate: `sum/len` as a double
is exact whenever the true quotient is a half-integer (half-integers are
representable), so the rounding equals rounding the exact rational. -/
def roundMean (sum len : ℕ) : ℕ :=
  (2 * sum + len) / (2 * len)

/-- `analyzeFile` (src/core/analyzer.ts:109). -/
def analyzeFile (env : Env) (baseDir : FsPath) (filePath : RelFile) :
    FileScore :=
  match env.read (baseDir ++ filePath.dirs ++ [filePath.name]) with
  | none => { path := filePath, score := 0, issues := ["file unreadable"], signals := none }
  | some code =>
    if isBlankStr code then
      { path := filePath, score := 100, issues := [],
        signals := some ⟨100, 100, 100, 100, 100⟩ }
    else
      let ext := (splitExt filePath.name).2
      let isTS := ext = ".ts" ∨ ext = ".tsx"
      let parsed := if isTS then env.parseTS code else env.parseJS code
      let avgFuncLength : ℚ :=
        if parsed.functions.length > 0 then
          ((parsed.functions.sum : ℚ) / (parsed.functions.length : ℚ))
        else 0
      let funcScore :=
        if parsed.functions.length = 0 then 100
        else scoreFunctionLength avgFuncLength
      let couplingScore := scoreCoupling parsed.imports
      let testScore := scoreTestCoverage env.fsExists filePath baseDir
      let commentScore := scoreCommentDensity parsed.commentLines parsed.totalLines
      let sizeScore := scoreFileSize parsed.totalLines
      let overall := overallOf funcScore couplingScore testScore commentScore sizeScore
      let signals : Signals :=
        ⟨funcScore, couplingScore, testScore, commentScore, sizeScore⟩
      let topIssue := getTopIssue signals
      let issues :=
        if topIssue ≠ "" ∧ topIssue ≠ "✓ AI-ready" then
          (let fix := getFix topIssue
           if fix ≠ "" then [topIssue, fix] else [topIssue])
        else []
      { path := filePath, score := overall, issues := issues, signals := some signals }

/-- Display string of a relative path, as it appears in recommendations. -/
def relToString (f : RelFile) : String :=
  String.intercalate "/" (f.dirs ++ [f.name])

/-- `analyzeDirectory` (src/core/analyzer.ts:165). -/
def analyzeDirectory (env : Env) (baseDir : FsPath) (files : List RelFile) :
    AnalysisResult :=
  let fileScores := (files.map (analyzeFile env baseDir))
  let sorted := stableSort (fun a b => a.score ≤ b.score) fileScores
  let overall :=
    if sorted.length > 0 then
      roundMean (sorted.map (·.score)).sum sorted.length
    else 100
  let worst := sorted.filter (fun f => f.score < 40)
  let recommendations :=
    match worst with
    | [] => []
    | w :: rest =>
      ("split " ++ relToString w.path ++ " into smaller files first (biggest win)") ::
        (rest.take 2).filterMap (fun f =>
          if f.issues ≠ [] then
            some (f.issues.headD "" ++ " in " ++ relToString f.path)
          else none)
  let recommendations :=
    if recommendations = [] ∧ overall < 80 then
      ["add test files for untested modules"]
    else recommendations
  { files := sorted, overall := overall, recommendations := recommendations }

/-- The filter section of `main` (src/cli.ts:96): `--min-score` keeps
files scoring strictly below the bound, `--top` keeps a front slice. -/
def applyFilters (minScore top : Option ℕ) (r : AnalysisResult) :
    AnalysisResult :=
  let r1 :=
    match minScore with
    | some m => { r with files := r.files.filter (fun f => f.score < m) }
    | none => r
  match top with
  | some t => { r1 with files := r1.files.take t }
  | none => r1

/-- The analysis portion of `main` (src/cli.ts:76): the empty-scan
early return, then analysis plus the two result filters. -/
def mainResult (minScore top : Option ℕ) (env : Env) (baseDir : FsPath)
    (files : List RelFile) : AnalysisResult :=
  if files.isEmpty then { files := [], overall := 100, recommendations := [] }
  else applyFilters minScore top (analyzeDirectory env baseDir files)

/-- The exit code of `main` (src/cli.ts:119): with `--ci`, 1 exactly when
the reported overall score is below the fixed gate threshold 60;
without `--ci` (and on the empty-scan early return) always 0. -/
def mainExitCode (ci : Bool) (minScore top : Option ℕ) (env : Env)
    (baseDir : FsPath) (files : List RelFile) : ℕ :=
  if files.isEmpty then 0
  else if ci then
    (if (mainResult minScore top env baseDir files).overall < 60 then 1 else 0)
  else 0

end Score

/-! ## Risk engine: `src/analyzer.ts` -/

namespace Risk

/-- `GlobalMutation` (src/analyzer.ts). -/
structure GlobalMutation where
  name : String
  line : ℕ
  deriving DecidableEq

/-- `TestCoverage` (src/analyzer.ts). -/
structure TestCoverage where
  has_test_file : Bool
  assertion_count : ℕ
  deriving DecidableEq

/-- The risk level of a file. -/
inductive RiskLevel where
  | low
  | medium
  | high
  deriving DecidableEq

/-- The fields of `FileAnalysis` that `calculateRisk` and
`generateBriefing` consume (the `Omit<FileAnalysis, 'risk_level' |
'briefing'>` parameter type in the source; `generateBriefing` never
reads `risk_level`). -/
structure RiskFacts where
  file : String
  incoming_deps : ℕ
  incoming_files : List String
  downstream_untested : List String
  circular_deps : List String
  global_mutations : List GlobalMutation
  missing_return_types : ℕ
  test_coverage : TestCoverage
  deriving DecidableEq

/-- `FileAnalysis` (src/analyzer.ts). -/
structure FileAnalysis extends RiskFacts where
  risk_level : RiskLevel
  briefing : String
  deriving DecidableEq

/-- `AnalysisResult` of the risk engine (src/analyzer.ts). -/
structure AnalysisResult where
  files : List FileAnalysis
  action_items : List String
  summary : String
  deriving DecidableEq

/-- `calculateRisk` (src/analyzer.ts:596). -/
def calculateRisk (a : RiskFacts) : RiskLevel :=
  if a.circular_deps.length > 0 ∨
      (a.incoming_deps > 5 ∧ a.test_coverage.has_test_file = false) ∨
      (a.incoming_deps > 3 ∧ a.downstream_untested.length > 2) ∨
      a.global_mutations.length > 2 ∨
      a.missing_return_types > 5 then
    .high
  else if (a.incoming_deps > 2 ∧ a.test_coverage.has_test_file = false) ∨
      a.global_mutations.length > 0 ∨
      a.missing_return_types > 2 ∨
      a.test_coverage.has_test_file = false then
    .medium
  else
    .low

/-- `n === 1 ? '' : 's'`. -/
def pluralS (n : ℕ) : String := if n = 1 then "" else "s"

/-- `generateBriefing` (src/analyzer.ts:617). -/
def generateBriefing (a : RiskFacts) : String :=
  let parts : List String :=
    (if a.incoming_deps > 0 then
      ["editing this affects " ++ toString a.incoming_deps ++ " file" ++
        pluralS a.incoming_deps ++ "."]
    else []) ++
    (if a.downstream_untested.length > 0 then
      ["downstream without tests: " ++
        String.intercalate ", " ((a.downstream_untested.take 3).map jsBasename) ++
        (if a.downstream_untested.length > 3 then
          " +" ++ toString (a.downstream_untested.length - 3) ++ " more"
        else "") ++
        " — changes may break silently."]
    else []) ++
    (if a.circular_deps.length > 0 then
      ["read " ++ jsBasename (a.circular_deps.headD "") ++
        " before touching this file."]
    else []) ++
    (if a.global_mutations.length > 0 then
      ["avoid " ++ String.intercalate ", " (a.global_mutations.map (·.name)) ++
        " — shared state."]
    else []) ++
    (if a.missing_return_types > 0 then
      [toString a.missing_return_types ++ " functions lack return types."]
    else []) ++
    (if a.incoming_deps > 5 ∧ a.test_coverage.assertion_count < 5 then
      ["write tests before editing — high impact, low coverage."]
    else [])
  if parts = [] then "safe to edit."
  else String.intercalate " " parts

/-- One downstream-untested action item (src/analyzer.ts:651). -/
def downstreamItem (a : FileAnalysis) : String :=
  "write tests for " ++
    String.intercalate ", " ((a.downstream_untested.take 2).map jsBasename) ++
    (if a.downstream_untested.length > 2 then
      " +" ++ toString (a.downstream_untested.length - 2) ++ " more"
    else "") ++
    " before editing " ++ jsBasename a.file ++ " (" ++
    toString a.incoming_deps ++ " files depend on it)"

/-- One circular-dependency action item (src/analyzer.ts:660). -/
def circularItem (a : FileAnalysis) : String :=
  "read " ++ jsBasename (a.circular_deps.headD "") ++ " before touching " ++
    jsBasename a.file ++ " — circular dependency"

/-- One global-state action item (src/analyzer.ts:668). -/
def globalStateItem (a : FileAnalysis) : String :=
  "trace usages of " ++
    String.intercalate ", " ((a.global_mutations.take 2).map (·.name)) ++
    " in " ++ jsBasename a.file ++ " — shared by " ++
    toString a.incoming_deps ++ " files"

/-- Priority-1 items: downstream-untested files with fan-in. -/
def downstreamItems (analyses : List FileAnalysis) : List String :=
  analyses.filterMap (fun a =>
    if a.downstream_untested.length > 0 ∧ a.incoming_deps > 0 then
      some (downstreamItem a)
    else none)

/-- Priority-2 items: read-first hints for files in cycles. -/
def circularItems (analyses : List FileAnalysis) : List String :=
  analyses.filterMap (fun a =>
    if a.circular_deps.length > 0 then some (circularItem a) else none)

/-- Priority-3 items: shared mutable state with high fan-in. -/
def globalStateItems (analyses : List FileAnalysis) : List String :=
  analyses.filterMap (fun a =>
    if a.global_mutations.length > 0 ∧ a.incoming_deps > 2 then
      some (globalStateItem a)
    else none)

/-- `generateActionItems` (src/analyzer.ts:647): the three priority
groups in order, deduplicated keeping first occurrences, capped at 5. -/
def generateActionItems (analyses : List FileAnalysis) : List String :=
  (dedupFirst
    (downstreamItems analyses ++ circularItems analyses ++
      globalStateItems analyses)).take 5

/-- The environment of the risk engine for one run against a fixed
project root: the per-file answers of the external fact extractors and
of the `madge` graph provider, all functions of the queried file alone.
`rel` is `path.relative(projectRoot, ·)`; `outsideCov` is the
existence-check-plus-`detectTestCoverage` lookup the second pass uses
for importer files outside the scanned set (`none` = file missing). -/
structure Env where
  circularOf : String → List String
  incomingOf : String → List String
  mutationsOf : String → List GlobalMutation
  mrtOf : String → ℕ
  coverageOf : String → TestCoverage
  rel : String → String
  outsideCov : String → Option TestCoverage

/-- First pass of `analyzeFiles` (src/analyzer.ts:687) for one file:
collect facts with an empty `downstream_untested`, then a provisional
risk level and briefing. -/
def pass1 (env : Env) (f : String) : FileAnalysis :=
  let facts : RiskFacts :=
    { file := env.rel f
      incoming_deps := (env.incomingOf f).length
      incoming_files := env.incomingOf f
      downstream_untested := []
      circular_deps := env.circularOf f
      global_mutations := env.mutationsOf f
      missing_return_types := env.mrtOf f
      test_coverage := env.coverageOf f }
  { toRiskFacts := facts
    risk_level := calculateRisk facts
    briefing := generateBriefing facts }

/-- The untested test of the second pass (src/analyzer.ts:714): an
incoming file counts as downstream-untested when its already-analyzed
record lacks a test file or, if it is outside the scanned set, when it
exists on disk and `detectTestCoverage` finds no test file for it. -/
def untestedIncoming (env : Env) (analyses : List FileAnalysis)
    (n : String) : Bool :=
  match analyses.find? (fun a => a.file = n) with
  | some existing => !existing.test_coverage.has_test_file
  | none =>
    match env.outsideCov n with
    | some coverage => !coverage.has_test_file
    | none => false

/-- Second pass of `analyzeFiles` (src/analyzer.ts:712) for one entry:
fill `downstream_untested`, recalculate the risk level, regenerate the
briefing.  The source mutates the entries in place while iterating, but
the lookup inside the pass reads only the `file` and `test_coverage`
fields, which the pass never writes, so the in-place update equals this
pure map over the pass-1 list. -/
def pass2update (env : Env) (analyses : List FileAnalysis)
    (a : FileAnalysis) : FileAnalysis :=
  let d := a.incoming_files.filter (untestedIncoming env analyses)
  let facts := { a.toRiskFacts with downstream_untested := d }
  { toRiskFacts := facts
    risk_level := calculateRisk facts
    briefing := generateBriefing facts }

/-- Sort key of the final `high` first, `medium`, `low` ordering. -/
def riskOrder : RiskLevel → ℕ
  | .high => 0
  | .medium => 1
  | .low => 2

/-- The summary sentence (src/analyzer.ts:743). -/
def summaryOf (analyses : List FileAnalysis) : String :=
  let highCount := (analyses.filter (fun a => a.risk_level = .high)).length
  let medCount := (analyses.filter (fun a => a.risk_level = .medium)).length
  let lowCount := (analyses.filter (fun a => a.risk_level = .low)).length
  let parts : List String :=
    (if highCount > 0 then [toString highCount ++ " high risk"] else []) ++
    (if medCount > 0 then [toString medCount ++ " medium"] else []) ++
    (if lowCount > 0 then [toString lowCount ++ " low"] else [])
  let needsAttention := highCount + medCount
  if needsAttention > 0 then
    String.intercalate ". " parts ++ ". " ++ toString needsAttention ++
      " file" ++ pluralS needsAttention ++ " need" ++
      (if needsAttention = 1 then "s" else "") ++
      " attention before starting your session."
  else
    toString analyses.length ++ " file" ++ pluralS analyses.length ++
      " analyzed. all clear — safe to start."

/-- `analyzeFiles` (src/analyzer.ts:684), with the cache-free
per-file fact extraction abstracted into `Env` (each extractor call is
a pure function of the queried file; the graph cache, which never
changes any answer, is studied separately in the `Cache` section). -/
def analyzeFiles (env : Env) (files : List String) : AnalysisResult :=
  let analyses := files.map (pass1 env)
  let analyses2 := analyses.map (pass2update env analyses)
  let sorted := stableSort
    (fun a b => riskOrder a.risk_level ≤ riskOrder b.risk_level) analyses2
  { files := sorted
    action_items := generateActionItems sorted
    summary := summaryOf sorted }

/-- Modelled from the spec: the risk-policy CLI entry point is not under
`src/` (only its tests are present); per §6 of the spec its exit code is
1 exactly when some scanned file is classified high-risk, else 0. -/
def riskExitCode (r : AnalysisResult) : ℕ :=
  if r.files.any (fun a => a.risk_level = .high) then 1 else 0

end Risk

/-! ## Test-file discovery of the risk engine: `detectTestCoverage` -/

namespace Risk

/-- An absolute source-file path: directory segments plus file name. -/
structure AbsFile where
  dirs : List String
  name : String
  deriving DecidableEq

/-- Character-list matching of one pattern at the head. -/
def headMatches : List Char → List Char → Bool
  | [], _ => true
  | _ :: _, [] => false
  | a :: as, b :: bs => a = b && headMatches as bs

/-- Fuel-indexed scanner behind `countOccur`; fuel at least the text
length makes the fuel bound irrelevant. -/
def countOccurAux (pat : List Char) : ℕ → List Char → ℕ
  | 0, _ => 0
  | _, [] => 0
  | fuel + 1, c :: cs =>
    if headMatches pat (c :: cs) then
      1 + countOccurAux pat fuel (cs.drop (pat.length - 1))
    else
      countOccurAux pat fuel cs

/-- Count of non-overlapping occurrences of `pat`, advancing past each
match, as a JavaScript global regex match over a literal pattern does. -/
def countOccur (pat l : List Char) : ℕ :=
  countOccurAux pat l.length l

/-- The assertion heuristic of `detectTestCoverage` (src/analyzer.ts:501):
occurrences of the four literal assertion markers. -/
def assertionCount (content : String) : ℕ :=
  countOccur "expect(".data content.data +
  countOccur "assert.".data content.data +
  countOccur ".toBe(".data content.data +
  countOccur ".toEqual(".data content.data

/-- The package-root walk of `detectTestCoverage` (src/analyzer.ts:465):
up to 6 directories are probed for a `package.json`, stopping at the
filesystem root; `none` when the walk finds nothing (the source then
keeps the file's own directory). -/
def findRootAux (fsExists : FsPath → Bool) : ℕ → FsPath → Option FsPath
  | 0, _ => none
  | n + 1, search =>
    if fsExists (search ++ ["package.json"]) then some search
    else if search = [] then none
    else findRootAux fsExists n search.dropLast

/-- The project root `detectTestCoverage` resolves for a directory. -/
def findProjectRoot (fsExists : FsPath → Bool) (dir : FsPath) : FsPath :=
  (findRootAux fsExists 6 dir).getD dir

/-- The ordered candidate list probed by `detectTestCoverage`
(src/analyzer.ts:477): sibling `.test`/`.spec` with the file's own
extension, `__tests__/<base><ext>`, the fixed-extension siblings, then
`tests/`/`test/` under the package root, then `tests/`/`test/` next to
the file's directory. -/
def dtcCandidates (fsExists : FsPath → Bool) (f : AbsFile) : List FsPath :=
  let dir := f.dirs
  let (base, ext) := splitExt f.name
  let projectRoot := findProjectRoot fsExists dir
  [dir ++ [base ++ ".test" ++ ext],
   dir ++ [base ++ ".spec" ++ ext],
   dir ++ ["__tests__", base ++ ext],
   dir ++ [base ++ ".test.ts"],
   dir ++ [base ++ ".spec.ts"],
   dir ++ [base ++ ".test.js"],
   dir ++ [base ++ ".spec.js"],
   projectRoot ++ ["tests", base ++ ".test.ts"],
   projectRoot ++ ["tests", base ++ ".test.js"],
   projectRoot ++ ["tests", base ++ ".spec.ts"],
   projectRoot ++ ["test", base ++ ".test.ts"],
   projectRoot ++ ["test", base ++ ".test.js"],
   dir.dropLast ++ ["tests", base ++ ".test.ts"],
   dir.dropLast ++ ["tests", base ++ ".test.js"],
   dir.dropLast ++ ["test", base ++ ".test.ts"]]

/-- `detectTestCoverage` (src/analyzer.ts:459) over a filesystem giving
each existing file's content: the first existing candidate supplies the
assertion count. -/
def detectTestCoverage (fs : FsPath → Option String) (f : AbsFile) :
    TestCoverage :=
  match (dtcCandidates (fun p => (fs p).isSome) f).find?
      (fun p => (fs p).isSome) with
  | some c => { has_test_file := true, assertion_count := assertionCount ((fs c).getD "") }
  | none => { has_test_file := false, assertion_count := 0 }

/-- The test-discovery rule exactly as the spec sentence states it
(for comparison with the source): candidates `<base>.test<ext>`,
`<base>.spec<ext>`, a sibling `__tests__/<base><ext>`, then mirrored
`tests/` and `test/` directories at the project root, flat and
directory-mirrored; score 100 when some candidate exists, else 0. -/
def spec_testCoverageScore (fsExists : FsPath → Bool) (filePath : Score.RelFile)
    (baseDir : FsPath) : ℕ :=
  let dir := baseDir ++ filePath.dirs
  let (base, ext) := splitExt filePath.name
  let projectRoot := findProjectRoot fsExists dir
  let candidates : List FsPath :=
    [dir ++ [base ++ ".test" ++ ext],
     dir ++ [base ++ ".spec" ++ ext],
     dir ++ ["__tests__", base ++ ext],
     projectRoot ++ ["tests", base ++ ".test" ++ ext],
     projectRoot ++ ["test", base ++ ".test" ++ ext],
     projectRoot ++ ["tests"] ++ filePath.dirs ++ [base ++ ".test" ++ ext],
     projectRoot ++ ["test"] ++ filePath.dirs ++ [base ++ ".test" ++ ext]]
  if candidates.any fsExists then 100 else 0

end Risk

/-! ## The memoized import-graph cache: `madgeCache` (src/analyzer.ts:518) -/

namespace Cache

/-- The answers of one built `madge` graph: the cycle list and the
importer→imports adjacency object. -/
structure MadgeResultM where
  circular : List (List String)
  obj : List (String × List String)
  deriving DecidableEq

/-- Strip a trailing `.ts`/`.tsx`/`.js`/`.jsx`, the
`replace(/\.(ts|tsx|js|jsx)$/, '')` of the source. -/
def stripSrcExt (s : String) : String :=
  if s.endsWith ".tsx" then s.dropRight 4
  else if s.endsWith ".jsx" then s.dropRight 4
  else if s.endsWith ".ts" then s.dropRight 3
  else if s.endsWith ".js" then s.dropRight 3
  else s

/-- The graph-provider environment: `buildGraph root` is one `madge`
invocation (`none` models the call throwing, which the source turns
into an empty answer without caching); `relOf` is
`path.relative(projectRoot, ·)` for the fixed root of the run. -/
structure GraphEnv where
  buildGraph : String → Option MadgeResultM
  relOf : String → String

/-- The run-scoped cache keyed by project root. -/
abbrev MCache := List (String × MadgeResultM)

/-- `madgeCache.get(root)`. -/
def cacheGet (c : MCache) (root : String) : Option MadgeResultM :=
  (c.find? (fun p => p.1 = root)).map (·.2)

/-- The cycle-membership computation of `detectCircularDeps`
(src/analyzer.ts:531) on a built graph. -/
def computeCircular (m : MadgeResultM) (relFile : String) : List String :=
  let relNoExt := stripSrcExt relFile
  m.circular.foldl (fun deps cycle =>
    if cycle.any (fun f =>
        f = relFile ∨ f = relNoExt ∨ stripSrcExt f = relNoExt) then
      cycle.foldl (fun deps f =>
        if stripSrcExt f ≠ relNoExt ∧ f ∉ deps then deps ++ [f] else deps)
        deps
    else deps) []

/-- The incoming-edge computation of `detectIncomingDepsDetails`
(src/analyzer.ts:565) on a built graph. -/
def computeIncoming (m : MadgeResultM) (relFile : String) : List String :=
  let relNoExt := stripSrcExt relFile
  (m.obj.filter (fun p => p.2.any (fun dep =>
    dep = relFile ∨ dep = relNoExt ∨ stripSrcExt dep = relNoExt))).map (·.1)

/-- `detectCircularDeps` (src/analyzer.ts:520) with the cache passed
explicitly; the third component counts the graphs built by the call
(a failing `madge` invocation builds no graph and caches nothing). -/
def detectCircularDepsS (env : GraphEnv) (c : MCache) (root file : String) :
    List String × MCache × ℕ :=
  match cacheGet c root with
  | some m => (computeCircular m (env.relOf file), c, 0)
  | none =>
    match env.buildGraph root with
    | some m => (computeCircular m (env.relOf file), (root, m) :: c, 1)
    | none => ([], c, 0)

/-- `detectIncomingDepsDetails` (src/analyzer.ts:554) with the cache
passed explicitly, instrumented like `detectCircularDepsS`. -/
def detectIncomingDepsDetailsS (env : GraphEnv) (c : MCache)
    (root file : String) : List String × MCache × ℕ :=
  match cacheGet c root with
  | some m => (computeIncoming m (env.relOf file), c, 0)
  | none =>
    match env.buildGraph root with
    | some m => (computeIncoming m (env.relOf file), (root, m) :: c, 1)
    | none => ([], c, 0)

/-- One loop iteration of `analyzeFiles`: the two graph queries for one
file, threading the cache and accumulating results and build count. -/
def analyzeStep (env : GraphEnv) (root : String)
    (st : List (List String × List String) × MCache × ℕ) (f : String) :
    List (List String × List String) × MCache × ℕ :=
  let (acc, c, n) := st
  let (circ, c1, n1) := detectCircularDepsS env c root f
  let (inc, c2, n2) := detectIncomingDepsDetailsS env c1 root f
  (acc ++ [(circ, inc)], c2, n + n1 + n2)

/-- The graph-query skeleton of `analyzeFiles` (src/analyzer.ts:684):
all per-file queries against the single project root of the run, then
`clearMadgeCache()` before the result is returned.  Returns the
per-file `(circular, incoming)` answers, the cache as the run returns
it, and the number of graphs built during the run. -/
def analyzeFilesS (env : GraphEnv) (c₀ : MCache) (root : String)
    (files : List String) : List (List String × List String) × MCache × ℕ :=
  let r := files.foldl (analyzeStep env root) ([], c₀, 0)
  (r.1, [], r.2.2)

end Cache

/-! ## Helper lemmas -/

theorem insertLE_perm (le : α → α → Bool) (x : α) (l : List α) :
    (insertLE le x l).Perm (x :: l) := by
  induction l with
  | nil => simp [insertLE]
  | cons y ys ih =>
    unfold insertLE
    by_cases h : le y x
    · simp only [h, if_true]
      exact (ih.cons y).trans (List.Perm.swap x y ys)
    · simp [h]

theorem foldl_insertLE_perm (le : α → α → Bool) (l acc : List α) :
    (l.foldl (fun acc x => insertLE le x acc) acc).Perm (acc ++ l) := by
  induction l generalizing acc with
  | nil => simp
  | cons x xs ih =>
    simp only [List.foldl_cons]
    exact (ih (insertLE le x acc)).trans
      (((insertLE_perm le x acc).append_right xs).trans List.perm_middle.symm)

theorem stableSort_perm (le : α → α → Bool) (l : List α) :
    (stableSort le l).Perm l := by
  simpa using foldl_insertLE_perm le l []

theorem stableSort_length (le : α → α → Bool) (l : List α) :
    (stableSort le l).length = l.length :=
  (stableSort_perm le l).length_eq

theorem mem_stableSort (le : α → α → Bool) (l : List α) (x : α) :
    x ∈ stableSort le l ↔ x ∈ l :=
  (stableSort_perm le l).mem_iff

theorem mem_of_mem_dedupFirstAux {seen l : List String} {x : String}
    (h : x ∈ dedupFirstAux seen l) : x ∈ l := by
  induction l generalizing seen with
  | nil => simp [dedupFirstAux] at h
  | cons y ys ih =>
    unfold dedupFirstAux at h
    by_cases hy : y ∈ seen
    · simp only [hy, if_true] at h
      exact List.mem_cons_of_mem y (ih h)
    · simp only [hy, if_false, List.mem_cons] at h
      rcases h with h | h
      · exact h ▸ List.mem_cons_self y ys
      · exact List.mem_cons_of_mem y (ih h)

theorem dedupFirstAux_nodup (seen l : List String) :
    (dedupFirstAux seen l).Nodup ∧ ∀ x ∈ dedupFirstAux seen l, x ∉ seen := by
  induction l generalizing seen with
  | nil => simp [dedupFirstAux]
  | cons y ys ih =>
    unfold dedupFirstAux
    by_cases hy : y ∈ seen
    · simpa [hy] using ih seen
    · simp only [hy, if_false]
      obtain ⟨hnd, hns⟩ := ih (y :: seen)
      refine ⟨List.nodup_cons.mpr ⟨fun hmem => ?_, hnd⟩, ?_⟩
      · exact (hns y hmem) (List.mem_cons_self y seen)
      · intro x hx
        rcases List.mem_cons.mp hx with rfl | hx'
        · exact hy
        · intro hxs
          exact hns x hx' (List.mem_cons_of_mem y hxs)

theorem dedupFirstAux_cons_mem {x : String} {seen l : List String}
    (h : x ∈ seen) :
    dedupFirstAux seen (x :: l) = dedupFirstAux seen l := by
  simp [dedupFirstAux, h]

theorem dedupFirstAux_cons_not_mem {x : String} {seen l : List String}
    (h : x ∉ seen) :
    dedupFirstAux seen (x :: l) = x :: dedupFirstAux (x :: seen) l := by
  simp [dedupFirstAux, h]

theorem dedupFirstAux_append_split (xs : List String) :
    ∀ (seen ys : List String), ∃ l seenMid,
      dedupFirstAux seen (xs ++ ys) = l ++ dedupFirstAux seenMid ys ∧
      (∀ s ∈ l, s ∈ xs) := by
  induction xs with
  | nil =>
    intro seen ys
    exact ⟨[], seen, by simp, by simp⟩
  | cons x xs ih =>
    intro seen ys
    rw [List.cons_append]
    by_cases hx : x ∈ seen
    · rw [dedupFirstAux_cons_mem hx]
      obtain ⟨l, seenMid, heq, hl⟩ := ih seen ys
      exact ⟨l, seenMid, heq, fun s hs => List.mem_cons_of_mem x (hl s hs)⟩
    · rw [dedupFirstAux_cons_not_mem hx]
      obtain ⟨l, seenMid, heq, hl⟩ := ih (x :: seen) ys
      refine ⟨x :: l, seenMid, by simp [heq], ?_⟩
      intro s hs
      rcases List.mem_cons.mp hs with rfl | hs'
      · exact List.mem_cons_self s xs
      · exact List.mem_cons_of_mem x (hl s hs')

theorem applyFilters_overall (minScore top : Option ℕ) (r : Score.AnalysisResult) :
    (Score.applyFilters minScore top r).overall = r.overall ∧
    (Score.applyFilters minScore top r).recommendations = r.recommendations ∧
    (Score.applyFilters minScore top r).files.Sublist r.files := by
  unfold Score.applyFilters
  cases minScore <;> cases top <;>
    simp [List.Sublist.trans (List.take_sublist _ _) (List.filter_sublist _),
      List.take_sublist, List.filter_sublist]

/-! ## Claim theorems -/

/-- C1: for every file analysis record the risk classifier returns
`high` exactly when `circular_deps` is non-empty, or `incoming_deps > 5`
with no own test file, or `incoming_deps > 3` with more than 2
downstream-untested members, or more than 2 global mutations, or more
than 5 missing return types; otherwise `medium` exactly when
`incoming_deps > 2` with no own test file, or some global mutation, or
more than 2 missing return types, or no own test file; otherwise `low`.
In particular a record with non-empty `circular_deps` always classifies
`high`. -/
theorem calculateRisk_matches_spec (a : Risk.RiskFacts) :
    (Risk.calculateRisk a = .high ↔
      (a.circular_deps ≠ [] ∨
       (a.incoming_deps > 5 ∧ a.test_coverage.has_test_file = false) ∨
       (a.incoming_deps > 3 ∧ a.downstream_untested.length > 2) ∨
       a.global_mutations.length > 2 ∨
       a.missing_return_types > 5)) ∧
    (Risk.calculateRisk a = .medium ↔
      (¬(a.circular_deps ≠ [] ∨
         (a.incoming_deps > 5 ∧ a.test_coverage.has_test_file = false) ∨
         (a.incoming_deps > 3 ∧ a.downstream_untested.length > 2) ∨
         a.global_mutations.length > 2 ∨
         a.missing_return_types > 5) ∧
       ((a.incoming_deps > 2 ∧ a.test_coverage.has_test_file = false) ∨
        a.global_mutations.length > 0 ∨
        a.missing_return_types > 2 ∨
        a.test_coverage.has_test_file = false))) ∧
    (Risk.calculateRisk a = .low ↔
      (¬(a.circular_deps ≠ [] ∨
         (a.incoming_deps > 5 ∧ a.test_coverage.has_test_file = false) ∨
         (a.incoming_deps > 3 ∧ a.downstream_untested.length > 2) ∨
         a.global_mutations.length > 2 ∨
         a.missing_return_types > 5) ∧
       ¬((a.incoming_deps > 2 ∧ a.test_coverage.has_test_file = false) ∨
         a.global_mutations.length > 0 ∨
         a.missing_return_types > 2 ∨
         a.test_coverage.has_test_file = false))) ∧
    (a.circular_deps ≠ [] → Risk.calculateRisk a = .high) := by
  have hlen : a.circular_deps.length > 0 ↔ a.circular_deps ≠ [] :=
    List.length_pos
  unfold Risk.calculateRisk
  split_ifs with h1 h2 <;>
    refine ⟨?_, ?_, ?_, ?_⟩ <;>
      simp_all

/-- Witness for C1 at a concrete record: a record whose only risk signal
is one circular dependency classifies `high`. -/
theorem calculateRisk_matches_spec_witness :
    Risk.calculateRisk
      { file := "a.ts", incoming_deps := 0, incoming_files := [],
        downstream_untested := [], circular_deps := ["b.ts"],
        global_mutations := [], missing_return_types := 0,
        test_coverage := ⟨true, 3⟩ } = .high :=
  (calculateRisk_matches_spec _).2.2.2 (by simp)

/-- C6: every per-axis banding function is monotonic — a worse raw
metric yields a lower or equal score; for comment density, with fixed
positive `totalLines`, a lower comment ratio yields a lower or equal
score. -/
theorem banding_monotone :
    (∀ x y : ℚ, x ≤ y →
      Score.scoreFunctionLength y ≤ Score.scoreFunctionLength x) ∧
    (∀ x y : ℕ, x ≤ y → Score.scoreCoupling y ≤ Score.scoreCoupling x) ∧
    (∀ x y : ℕ, x ≤ y → Score.scoreFileSize y ≤ Score.scoreFileSize x) ∧
    (∀ t c₁ c₂ : ℕ, 0 < t → (c₁ : ℚ) / t ≤ (c₂ : ℚ) / t →
      Score.scoreCommentDensity c₁ t ≤ Score.scoreCommentDensity c₂ t) := by
  refine ⟨?_, ?_, ?_, ?_⟩
  · intro x y hxy
    unfold Score.scoreFunctionLength
    split_ifs <;> push_neg at * <;> linarith
  · intro x y hxy
    unfold Score.scoreCoupling
    split_ifs <;> omega
  · intro x y hxy
    unfold Score.scoreFileSize
    split_ifs <;> omega
  · intro t c₁ c₂ ht hr
    unfold Score.scoreCommentDensity
    have ht' : t ≠ 0 := Nat.pos_iff_ne_zero.mp ht
    simp only [ht', if_false]
    split_ifs <;> push_neg at * <;> linarith

/-- Witness for C6 at concrete inputs on all four axes. -/
theorem banding_monotone_witness :
    Score.scoreFunctionLength 55 ≤ Score.scoreFunctionLength 21 ∧
    Score.scoreCoupling 9 ≤ Score.scoreCoupling 4 ∧
    Score.scoreFileSize 600 ≤ Score.scoreFileSize 200 ∧
    Score.scoreCommentDensity 0 100 ≤ Score.scoreCommentDensity 20 100 :=
  ⟨banding_monotone.1 21 55 (by norm_num),
   banding_monotone.2.1 4 9 (by norm_num),
   banding_monotone.2.2.1 200 600 (by norm_num),
   banding_monotone.2.2.2 100 0 20 (by norm_num) (by norm_num)⟩

/-- C7: a file whose contents cannot be read gets score 0 with the
single issue `file unreadable` and no computed signals, and the scan as
a whole still produces one result per input file. -/
theorem unreadable_file_fast_path (env : Score.Env) (baseDir : FsPath)
    (fp : Score.RelFile) (files : List Score.RelFile)
    (h : env.read (baseDir ++ fp.dirs ++ [fp.name]) = none) :
    Score.analyzeFile env baseDir fp =
      { path := fp, score := 0, issues := ["file unreadable"],
        signals := none } ∧
    (Score.analyzeDirectory env baseDir files).files.length = files.length := by
  constructor
  · unfold Score.analyzeFile
    rw [h]
  · unfold Score.analyzeDirectory
    simp [stableSort_length]

/-- Witness for C7: a concrete environment whose filesystem refuses
every read. -/
theorem unreadable_file_fast_path_witness :
    (Score.analyzeFile
        ⟨fun _ => none, fun _ => false, fun _ => ⟨[], 0, 0, 0⟩,
          fun _ => ⟨[], 0, 0, 0⟩⟩
        ["proj"] ⟨["src"], "a.ts"⟩ =
      { path := ⟨["src"], "a.ts"⟩, score := 0,
        issues := ["file unreadable"], signals := none }) ∧
    (Score.analyzeDirectory
        ⟨fun _ => none, fun _ => false, fun _ => ⟨[], 0, 0, 0⟩,
          fun _ => ⟨[], 0, 0, 0⟩⟩
        ["proj"] [⟨["src"], "a.ts"⟩]).files.length = 1 :=
  unreadable_file_fast_path _ ["proj"] ⟨["src"], "a.ts"⟩ _ rfl

theorem overallOf_eq_jsRound (fl cp tc cd fs : ℕ) :
    (Score.overallOf fl cp tc cd fs : ℤ) =
      Score.jsRound ((0.30 : ℚ) * fl + (0.25 : ℚ) * cp + (0.25 : ℚ) * tc +
        (0.10 : ℚ) * cd + (0.10 : ℚ) * fs) := by
  unfold Score.overallOf Score.jsRound
  have h : (0.30 : ℚ) * fl + (0.25 : ℚ) * cp + (0.25 : ℚ) * tc +
      (0.10 : ℚ) * cd + (0.10 : ℚ) * fs + 1 / 2 =
      ((2 * (3 * fl + cd + fs) + 5 * (cp + tc) + 10 : ℕ) : ℚ) / ((20 : ℕ) : ℚ) := by
    push_cast
    ring
  rw [h, Rat.floor_natCast_div_natCast]
  omega

/-- C2: for every analyzed file that is readable and not
whitespace-only, the per-file overall score equals
`round(0.30·functionLength + 0.25·coupling + 0.25·testCoverage +
0.10·commentDensity + 0.10·fileSize)` over the file's own five
sub-scores, with integer rounding. -/
theorem overall_is_weighted_round (env : Score.Env) (baseDir : FsPath)
    (fp : Score.RelFile) (code : String)
    (hread : env.read (baseDir ++ fp.dirs ++ [fp.name]) = some code)
    (hblank : isBlankStr code = false) :
    ∃ s : Score.Signals,
      (Score.analyzeFile env baseDir fp).signals = some s ∧
      ((Score.analyzeFile env baseDir fp).score : ℤ) =
        Score.jsRound ((0.30 : ℚ) * s.functionLength +
          (0.25 : ℚ) * s.coupling + (0.25 : ℚ) * s.testCoverage +
          (0.10 : ℚ) * s.commentDensity + (0.10 : ℚ) * s.fileSize) := by
  unfold Score.analyzeFile
  rw [hread]
  simp only [hblank, Bool.false_eq_true, if_false]
  exact ⟨_, rfl, overallOf_eq_jsRound _ _ _ _ _⟩

/-- Witness for C2 at a concrete environment and file. -/
theorem overall_is_weighted_round_witness :
    isBlankStr "let x = 1" = false ∧
    ∃ s : Score.Signals,
      (Score.analyzeFile
          ⟨fun _ => some "let x = 1", fun _ => false,
            fun _ => ⟨[10, 30], 4, 6, 80⟩, fun _ => ⟨[10, 30], 4, 6, 80⟩⟩
          ["proj"] ⟨["src"], "a.ts"⟩).signals = some s ∧
      ((Score.analyzeFile
          ⟨fun _ => some "let x = 1", fun _ => false,
            fun _ => ⟨[10, 30], 4, 6, 80⟩, fun _ => ⟨[10, 30], 4, 6, 80⟩⟩
          ["proj"] ⟨["src"], "a.ts"⟩).score : ℤ) =
        Score.jsRound ((0.30 : ℚ) * s.functionLength +
          (0.25 : ℚ) * s.coupling + (0.25 : ℚ) * s.testCoverage +
          (0.10 : ℚ) * s.commentDensity + (0.10 : ℚ) * s.fileSize) :=
  ⟨by decide,
   overall_is_weighted_round _ ["proj"] ⟨["src"], "a.ts"⟩ "let x = 1" rfl
     (by decide)⟩

/-- C3 counterexample: with exactly one file on disk, the sibling
`__tests__/foo.ts` next to `src/foo.ts`, the spec's discovery rule
(`__tests__/<base><ext>` is a candidate) scores 100, but the score
engine's `scoreTestCoverage` — whose `__tests__` candidates are
`__tests__/<base>.test<ext>` and `__tests__/<base>.spec<ext>` — scores
the file 0. -/
theorem testDiscovery_spec_counterexample :
    Risk.spec_testCoverageScore
        (fun p => p = ["proj", "src", "__tests__", "foo.ts"])
        ⟨["src"], "foo.ts"⟩ ["proj"] = 100 ∧
    Score.scoreTestCoverage
        (fun p => p = ["proj", "src", "__tests__", "foo.ts"])
        ⟨["src"], "foo.ts"⟩ ["proj"] = 0 := by
  constructor
  · decide
  · decide

/-- C3 amended: each discovery routine probes its own fixed candidate
list in order and reports from the first match.  `scoreTestCoverage`
(candidates per `scoreCandidates`: sibling `.test`/`.spec`,
`__tests__/<base>.test<ext>`, `__tests__/<base>.spec<ext>`, then
`tests/`/`test/` under the parent directory, flat and
directory-mirrored) returns 100 exactly when some candidate exists and
0 otherwise; `detectTestCoverage` (candidates per `dtcCandidates`:
sibling `.test`/`.spec` with the file's extension, `__tests__/<base><ext>`,
fixed-extension siblings, then `tests/`/`test/` under the package root
and next to the file's directory) reports a test file exactly when some
candidate exists, and the first existing candidate supplies the
assertion count. -/
theorem testDiscovery_first_match (ex : FsPath → Bool)
    (fs : FsPath → Option String) (fp : Score.RelFile) (bd : FsPath)
    (f : Risk.AbsFile) :
    (Score.scoreTestCoverage ex fp bd = 100 ↔
      ∃ p ∈ Score.scoreCandidates fp bd, ex p = true) ∧
    (Score.scoreTestCoverage ex fp bd = 0 ↔
      ∀ p ∈ Score.scoreCandidates fp bd, ex p = false) ∧
    ((Risk.detectTestCoverage fs f).has_test_file = true ↔
      ∃ p ∈ Risk.dtcCandidates (fun p => (fs p).isSome) f,
        (fs p).isSome = true) ∧
    (∀ c, (Risk.dtcCandidates (fun p => (fs p).isSome) f).find?
        (fun p => (fs p).isSome) = some c →
      Risk.detectTestCoverage fs f =
        ⟨true, Risk.assertionCount ((fs c).getD "")⟩) := by
  refine ⟨?_, ?_, ?_, ?_⟩
  · unfold Score.scoreTestCoverage
    rcases h : (Score.scoreCandidates fp bd).find? ex with _ | c
    · simp only [List.find?_eq_none] at h
      simp
      intro p hp
      simpa using h p hp
    · exact iff_of_true rfl
        ⟨c, List.mem_of_find?_eq_some h, by simpa using List.find?_some h⟩
  · unfold Score.scoreTestCoverage
    rcases h : (Score.scoreCandidates fp bd).find? ex with _ | c
    · simp only [List.find?_eq_none] at h
      simp
      intro p hp
      simpa using h p hp
    · refine iff_of_false (by norm_num) ?_
      intro hall
      have hc := List.find?_some h
      rw [hall c (List.mem_of_find?_eq_some h)] at hc
      exact absurd hc (by simp)
  · unfold Risk.detectTestCoverage
    rcases h : (Risk.dtcCandidates (fun p => (fs p).isSome) f).find?
        (fun p => (fs p).isSome) with _ | c
    · simp only [List.find?_eq_none] at h
      simp
      intro p hp
      simpa using h p hp
    · exact iff_of_true rfl
        ⟨c, List.mem_of_find?_eq_some h, by simpa using List.find?_some h⟩
  · intro c hc
    unfold Risk.detectTestCoverage
    rw [hc]

/-- Witness for C3's amended theorem: a filesystem holding the sibling
`foo.test.ts`, which is the first candidate of both routines. -/
theorem testDiscovery_first_match_witness :
    (Score.scoreTestCoverage
        (fun p => p = ["proj", "src", "foo.test.ts"])
        ⟨["src"], "foo.ts"⟩ ["proj"] = 100) ∧
    (Risk.detectTestCoverage
        (fun p => if p = ["proj", "src", "foo.test.ts"] then
          some "expect(1).toBe(1)" else none)
        ⟨["proj", "src"], "foo.ts"⟩ =
      ⟨true, Risk.assertionCount "expect(1).toBe(1)"⟩) :=
  ⟨((testDiscovery_first_match
        (fun p => p = ["proj", "src", "foo.test.ts"])
        (fun _ => none) ⟨["src"], "foo.ts"⟩ ["proj"]
        ⟨[], ""⟩).1).mpr
      ⟨["proj", "src", "foo.test.ts"], by decide, by decide⟩,
   ((testDiscovery_first_match (fun _ => false)
        (fun p => if p = ["proj", "src", "foo.test.ts"] then
          some "expect(1).toBe(1)" else none)
        ⟨[], ""⟩ [] ⟨["proj", "src"], "foo.ts"⟩).2.2.2)
      ["proj", "src", "foo.test.ts"] (by decide)⟩

/-- C9: the repo-wide action-item list holds at most 5 items, no
duplicates, and decomposes as downstream-untested items, then
circular-dependency read-first items, then global-state items. -/
theorem actionItems_capped_ordered (analyses : List Risk.FileAnalysis) :
    ∃ l₁ l₂ l₃,
      Risk.generateActionItems analyses = l₁ ++ l₂ ++ l₃ ∧
      (Risk.generateActionItems analyses).Nodup ∧
      (Risk.generateActionItems analyses).length ≤ 5 ∧
      (∀ s ∈ l₁, s ∈ Risk.downstreamItems analyses) ∧
      (∀ s ∈ l₂, s ∈ Risk.circularItems analyses) ∧
      (∀ s ∈ l₃, s ∈ Risk.globalStateItems analyses) := by
  have hnodup : (Risk.generateActionItems analyses).Nodup := by
    unfold Risk.generateActionItems dedupFirst
    exact ((dedupFirstAux_nodup [] _).1).sublist (List.take_sublist _ _)
  have hlen : (Risk.generateActionItems analyses).length ≤ 5 := by
    unfold Risk.generateActionItems
    exact List.length_take_le _ _
  obtain ⟨l, seenMid, heq, hl⟩ :=
    dedupFirstAux_append_split (Risk.downstreamItems analyses) []
      (Risk.circularItems analyses ++ Risk.globalStateItems analyses)
  obtain ⟨l', seenMid', heq', hl'⟩ :=
    dedupFirstAux_append_split (Risk.circularItems analyses) seenMid
      (Risk.globalStateItems analyses)
  refine ⟨l.take 5, l'.take (5 - l.length),
    (dedupFirstAux seenMid' (Risk.globalStateItems analyses)).take
      (5 - l.length - l'.length), ?_, hnodup, hlen, ?_, ?_, ?_⟩
  · unfold Risk.generateActionItems dedupFirst
    rw [List.append_assoc, heq, heq', List.take_append_eq_append_take,
      List.take_append_eq_append_take]
    simp only [List.append_assoc]
  · intro s hs
    exact hl s (List.mem_of_mem_take hs)
  · intro s hs
    exact hl' s (List.mem_of_mem_take hs)
  · intro s hs
    exact mem_of_mem_dedupFirstAux (List.mem_of_mem_take hs)

theorem cacheGet_cons_self (root : String) (m : Cache.MadgeResultM)
    (c : Cache.MCache) :
    Cache.cacheGet ((root, m) :: c) root = some m := by
  simp [Cache.cacheGet]

/-- One loop iteration evaluated by cases on the cache and on the
graph build: a cached root answers without building; a successful
build caches the graph and counts one build; a failed build leaves the
cache unchanged and counts nothing. -/
theorem analyzeStep_eq (env : Cache.GraphEnv) (root : String)
    (acc : List (List String × List String)) (c : Cache.MCache) (n : ℕ)
    (f : String) :
    Cache.analyzeStep env root (acc, c, n) f =
      match Cache.cacheGet c root with
      | some m =>
        (acc ++ [(Cache.computeCircular m (env.relOf f),
          Cache.computeIncoming m (env.relOf f))], c, n)
      | none =>
        match env.buildGraph root with
        | some m =>
          (acc ++ [(Cache.computeCircular m (env.relOf f),
            Cache.computeIncoming m (env.relOf f))], (root, m) :: c, n + 1)
        | none => (acc ++ [([], [])], c, n) := by
  rcases hc : Cache.cacheGet c root with _ | m
  · rcases hb : env.buildGraph root with _ | m
    · simp [Cache.analyzeStep, Cache.detectCircularDepsS,
        Cache.detectIncomingDepsDetailsS, hc, hb]
    · simp [Cache.analyzeStep, Cache.detectCircularDepsS,
        Cache.detectIncomingDepsDetailsS, hc, hb,
        cacheGet_cons_self root m c]
  · simp [Cache.analyzeStep, Cache.detectCircularDepsS,
      Cache.detectIncomingDepsDetailsS, hc]

/-- The build count of the query loop: starting from any cache, at most
one further graph is built for the run's root (none if the root is
already cached). -/
theorem foldl_analyzeStep_builds (env : Cache.GraphEnv) (root : String) :
    ∀ (files : List String) (acc : List (List String × List String))
      (c : Cache.MCache) (n : ℕ),
      (files.foldl (Cache.analyzeStep env root) (acc, c, n)).2.2 ≤
        n + (if (Cache.cacheGet c root).isSome then 0 else 1) := by
  intro files
  induction files with
  | nil =>
    intro acc c n
    simp
  | cons f fs ih =>
    intro acc c n
    rw [List.foldl_cons, analyzeStep_eq]
    rcases hc : Cache.cacheGet c root with _ | m
    · rcases hb : env.buildGraph root with _ | m
      · have h2 := ih (acc ++ [([], [])]) c n
        rw [hc] at h2
        simpa [hc] using h2
      · have h1 : Cache.cacheGet ((root, m) :: c) root = some m :=
          cacheGet_cons_self root m c
        have h2 := ih (acc ++ [(Cache.computeCircular m (env.relOf f),
          Cache.computeIncoming m (env.relOf f))]) ((root, m) :: c) (n + 1)
        rw [h1] at h2
        simpa [hc] using h2
    · have h2 := ih (acc ++ [(Cache.computeCircular m (env.relOf f),
        Cache.computeIncoming m (env.relOf f))]) c n
      rw [hc] at h2
      simpa [hc] using h2

/-- C5: within one run the import graph is built at most once for the
project root — a cycle or incoming-edge query that finds the root in
the cache answers from the cached graph, builds nothing and leaves the
cache unchanged, and a whole run starting from the empty cache builds
at most one graph — and the cache is cleared before the run's result is
returned. -/
theorem graph_cache_single_build (env : Cache.GraphEnv)
    (root file : String) (c : Cache.MCache) (m : Cache.MadgeResultM)
    (c₀ : Cache.MCache) (files : List String)
    (hcached : Cache.cacheGet c root = some m)
    (hempty : c₀ = []) :
    Cache.detectCircularDepsS env c root file =
      (Cache.computeCircular m (env.relOf file), c, 0) ∧
    Cache.detectIncomingDepsDetailsS env c root file =
      (Cache.computeIncoming m (env.relOf file), c, 0) ∧
    (Cache.analyzeFilesS env c₀ root files).2.2 ≤ 1 ∧
    (Cache.analyzeFilesS env c₀ root files).2.1 = [] := by
  refine ⟨?_, ?_, ?_, rfl⟩
  · unfold Cache.detectCircularDepsS
    rw [hcached]
  · unfold Cache.detectIncomingDepsDetailsS
    rw [hcached]
  · subst hempty
    have h := foldl_analyzeStep_builds env root files [] [] 0
    simpa [Cache.analyzeFilesS, Cache.cacheGet] using h

/-- Witness for C5: a concrete one-entry cache and a two-file run. -/
theorem graph_cache_single_build_witness :
    Cache.detectCircularDepsS ⟨fun _ => some ⟨[], []⟩, id⟩
        [("r", ⟨[["a", "b"]], []⟩)] "r" "f" =
      (Cache.computeCircular ⟨[["a", "b"]], []⟩ "f",
        [("r", ⟨[["a", "b"]], []⟩)], 0) ∧
    Cache.detectIncomingDepsDetailsS ⟨fun _ => some ⟨[], []⟩, id⟩
        [("r", ⟨[["a", "b"]], []⟩)] "r" "f" =
      (Cache.computeIncoming ⟨[["a", "b"]], []⟩ "f",
        [("r", ⟨[["a", "b"]], []⟩)], 0) ∧
    (Cache.analyzeFilesS ⟨fun _ => some ⟨[], []⟩, id⟩ [] "r"
        ["f", "g"]).2.2 ≤ 1 ∧
    (Cache.analyzeFilesS ⟨fun _ => some ⟨[], []⟩, id⟩ [] "r"
        ["f", "g"]).2.1 = [] :=
  graph_cache_single_build ⟨fun _ => some ⟨[], []⟩, id⟩ "r" "f"
    [("r", ⟨[["a", "b"]], []⟩)] ⟨[["a", "b"]], []⟩ [] ["f", "g"]
    (by decide) rfl

theorem pass1_file (env : Risk.Env) (f : String) :
    (Risk.pass1 env f).file = env.rel f := rfl

theorem pass2update_file (env : Risk.Env) (analyses : List Risk.FileAnalysis)
    (f : String) :
    (Risk.pass2update env analyses (Risk.pass1 env f)).file = env.rel f := rfl

theorem find?_pass1 (env : Risk.Env) (files : List String) (n : String) :
    (files.map (Risk.pass1 env)).find? (fun a => a.file = n) =
      (files.find? (fun f => env.rel f = n)).map (Risk.pass1 env) := by
  rw [List.find?_map]
  rfl

theorem find?_rel_agree (env : Risk.Env) {files files' : List String}
    (hperm : files.Perm files')
    (hinj : ∀ f ∈ files, ∀ g ∈ files, env.rel f = env.rel g → f = g)
    (n : String) :
    files.find? (fun f => env.rel f = n) = none ∧
        files'.find? (fun f => env.rel f = n) = none ∨
      ∃ g, files.find? (fun f => env.rel f = n) = some g ∧
        files'.find? (fun f => env.rel f = n) = some g := by
  rcases h : files.find? (fun f => env.rel f = n) with _ | g
  · left
    refine ⟨rfl, List.find?_eq_none.mpr ?_⟩
    intro x hx
    exact List.find?_eq_none.mp h x (hperm.mem_iff.mpr hx)
  · right
    have hg_mem : g ∈ files := List.mem_of_find?_eq_some h
    have hg_rel : env.rel g = n := by simpa using List.find?_some h
    rcases h' : files'.find? (fun f => env.rel f = n) with _ | g'
    · exact absurd (List.find?_eq_none.mp h' g (hperm.mem_iff.mp hg_mem))
        (by simp [hg_rel])
    · have hg'_mem : g' ∈ files := hperm.mem_iff.mpr
        (List.mem_of_find?_eq_some h')
      have hg'_rel : env.rel g' = n := by simpa using List.find?_some h'
      have hg'g : g' = g := hinj g' hg'_mem g hg_mem (hg'_rel.trans hg_rel.symm)
      exact ⟨g, rfl, by rw [hg'g]⟩

theorem untestedIncoming_perm (env : Risk.Env) {files files' : List String}
    (hperm : files.Perm files')
    (hinj : ∀ f ∈ files, ∀ g ∈ files, env.rel f = env.rel g → f = g)
    (n : String) :
    Risk.untestedIncoming env (files.map (Risk.pass1 env)) n =
      Risk.untestedIncoming env (files'.map (Risk.pass1 env)) n := by
  unfold Risk.untestedIncoming
  rw [find?_pass1, find?_pass1]
  rcases find?_rel_agree env hperm hinj n with ⟨h1, h2⟩ | ⟨g, h1, h2⟩ <;>
    rw [h1, h2]

theorem pass2update_perm (env : Risk.Env) {files files' : List String}
    (hperm : files.Perm files')
    (hinj : ∀ f ∈ files, ∀ g ∈ files, env.rel f = env.rel g → f = g)
    (f : String) :
    Risk.pass2update env (files.map (Risk.pass1 env)) (Risk.pass1 env f) =
      Risk.pass2update env (files'.map (Risk.pass1 env)) (Risk.pass1 env f) := by
  unfold Risk.pass2update
  have hfilter :
      (Risk.pass1 env f).incoming_files.filter
          (Risk.untestedIncoming env (files.map (Risk.pass1 env))) =
        (Risk.pass1 env f).incoming_files.filter
          (Risk.untestedIncoming env (files'.map (Risk.pass1 env))) := by
    apply List.filter_congr
    intro n _
    exact untestedIncoming_perm env hperm hinj n
  rw [hfilter]

theorem mem_analyzeFiles (env : Risk.Env) (files : List String)
    (a : Risk.FileAnalysis) :
    a ∈ (Risk.analyzeFiles env files).files ↔
      ∃ f ∈ files,
        a = Risk.pass2update env (files.map (Risk.pass1 env))
          (Risk.pass1 env f) := by
  unfold Risk.analyzeFiles
  rw [mem_stableSort]
  constructor
  · intro ha
    obtain ⟨b, hb, rfl⟩ := List.mem_map.mp ha
    obtain ⟨f, hf, rfl⟩ := List.mem_map.mp hb
    exact ⟨f, hf, rfl⟩
  · rintro ⟨f, hf, rfl⟩
    exact List.mem_map.mpr ⟨Risk.pass1 env f,
      List.mem_map.mpr ⟨f, hf, rfl⟩, rfl⟩

/-- C4: the risk-engine analysis is order-independent — for every
permutation of the input file list each individual file receives the
same final risk level and briefing string as in the unpermuted run
(assuming, as `path.relative` guarantees, that distinct input files
have distinct relative ids). -/
theorem risk_run_perm_invariant (env : Risk.Env) (files files' : List String)
    (hperm : files.Perm files')
    (hinj : ∀ f ∈ files, ∀ g ∈ files, env.rel f = env.rel g → f = g) :
    ∀ f ∈ files,
      (∃ a ∈ (Risk.analyzeFiles env files).files, a.file = env.rel f) ∧
      (∃ a' ∈ (Risk.analyzeFiles env files').files, a'.file = env.rel f) ∧
      (∀ a ∈ (Risk.analyzeFiles env files).files,
        ∀ a' ∈ (Risk.analyzeFiles env files').files,
          a.file = env.rel f → a'.file = env.rel f →
            a.risk_level = a'.risk_level ∧ a.briefing = a'.briefing) := by
  intro f hf
  have hinj' : ∀ x ∈ files', ∀ g ∈ files', env.rel x = env.rel g → x = g := by
    intro x hx g hg
    exact hinj x (hperm.mem_iff.mpr hx) g (hperm.mem_iff.mpr hg)
  refine ⟨?_, ?_, ?_⟩
  · exact ⟨_, (mem_analyzeFiles env files _).mpr ⟨f, hf, rfl⟩,
      pass2update_file env _ f⟩
  · exact ⟨_, (mem_analyzeFiles env files' _).mpr
      ⟨f, hperm.mem_iff.mp hf, rfl⟩, pass2update_file env _ f⟩
  · intro a ha a' ha' hafile ha'file
    obtain ⟨f₀, hf₀, rfl⟩ := (mem_analyzeFiles env files a).mp ha
    obtain ⟨f₁, hf₁, rfl⟩ := (mem_analyzeFiles env files' a').mp ha'
    have hrel₀ : env.rel f₀ = env.rel f := by
      simpa [pass2update_file] using hafile
    have hrel₁ : env.rel f₁ = env.rel f := by
      simpa [pass2update_file] using ha'file
    have hf₀f : f₀ = f := hinj f₀ hf₀ f hf hrel₀
    have hf₁f : f₁ = f := hinj f₁ (hperm.mem_iff.mpr hf₁) f hf hrel₁
    rw [hf₀f, hf₁f, pass2update_perm env hperm hinj f]
    exact ⟨rfl, rfl⟩

/-- Witness for C4: swapping a concrete two-file list leaves the entry
of the first file present in both runs. -/
theorem risk_run_perm_invariant_witness :
    ∃ a ∈ (Risk.analyzeFiles
        ⟨fun _ => [], fun _ => [], fun _ => [], fun _ => 0,
          fun _ => ⟨false, 0⟩, id, fun _ => none⟩
        ["a.ts", "b.ts"]).files,
      a.file = id "a.ts" :=
  (risk_run_perm_invariant
    ⟨fun _ => [], fun _ => [], fun _ => [], fun _ => 0,
      fun _ => ⟨false, 0⟩, id, fun _ => none⟩
    ["a.ts", "b.ts"] ["b.ts", "a.ts"]
    (List.Perm.swap "b.ts" "a.ts" [])
    (by decide) "a.ts" (by decide)).1

/-- C10: `--min-score` and `--top` filter only the per-file list of the
reported result; the reported overall score and the recommendations are
those of the full analysis and are unchanged by either filter. -/
theorem filters_only_restrict_files (minScore top : Option ℕ)
    (env : Score.Env) (baseDir : FsPath) (files : List Score.RelFile)
    (hne : files ≠ []) :
    (Score.mainResult minScore top env baseDir files).overall =
      (Score.analyzeDirectory env baseDir files).overall ∧
    (Score.mainResult minScore top env baseDir files).recommendations =
      (Score.analyzeDirectory env baseDir files).recommendations ∧
    (Score.mainResult minScore top env baseDir files).files.Sublist
      (Score.analyzeDirectory env baseDir files).files := by
  unfold Score.mainResult
  rw [if_neg (by simpa using hne)]
  exact applyFilters_overall minScore top _

/-- Witness for C10 at a concrete scan with both filters active. -/
theorem filters_only_restrict_files_witness :
    (Score.mainResult (some 50) (some 1)
        ⟨fun _ => none, fun _ => false, fun _ => ⟨[], 0, 0, 0⟩,
          fun _ => ⟨[], 0, 0, 0⟩⟩
        ["proj"] [⟨[], "a.ts"⟩]).overall =
      (Score.analyzeDirectory
        ⟨fun _ => none, fun _ => false, fun _ => ⟨[], 0, 0, 0⟩,
          fun _ => ⟨[], 0, 0, 0⟩⟩
        ["proj"] [⟨[], "a.ts"⟩]).overall :=
  (filters_only_restrict_files (some 50) (some 1) _ ["proj"] [⟨[], "a.ts"⟩]
    (by simp)).1

/-- C8: the exit code is 0 or 1; under the score policy (`--ci`) it is
1 exactly when the aggregate overall score of the full analysis falls
below the fixed gate threshold 60 (and some file was scanned); under
the risk policy it is 1 exactly when some scanned file is classified
high-risk. -/
theorem exit_code_gate (ci : Bool) (minScore top : Option ℕ)
    (env : Score.Env) (baseDir : FsPath) (files : List Score.RelFile)
    (renv : Risk.Env) (rfiles : List String) :
    (Score.mainExitCode ci minScore top env baseDir files = 0 ∨
      Score.mainExitCode ci minScore top env baseDir files = 1) ∧
    (Score.mainExitCode ci minScore top env baseDir files = 1 ↔
      (ci = true ∧ files ≠ [] ∧
        (Score.analyzeDirectory env baseDir files).overall < 60)) ∧
    (Risk.riskExitCode (Risk.analyzeFiles renv rfiles) = 1 ↔
      ∃ a ∈ (Risk.analyzeFiles renv rfiles).files, a.risk_level = .high) ∧
    (Risk.riskExitCode (Risk.analyzeFiles renv rfiles) = 0 ↔
      ∀ a ∈ (Risk.analyzeFiles renv rfiles).files, a.risk_level ≠ .high) := by
  refine ⟨?_, ?_, ?_, ?_⟩
  · unfold Score.mainExitCode
    split_ifs <;> simp
  · by_cases hne : files = []
    · subst hne
      simp [Score.mainExitCode]
    · have hov := (filters_only_restrict_files minScore top env baseDir
        files hne).1
      unfold Score.mainExitCode
      rw [if_neg (by simpa using hne)]
      rcases ci with _ | _
      · simp
      · rw [if_pos rfl, hov]
        by_cases hlt : (Score.analyzeDirectory env baseDir files).overall < 60
        · simp [hlt, hne]
        · simp [hlt]
  · unfold Risk.riskExitCode
    split_ifs with h
    · simp only [true_iff]
      simpa using h
    · refine iff_of_false (by norm_num) ?_
      intro hex
      exact h (by simpa using hex)
  · unfold Risk.riskExitCode
    split_ifs with h
    · refine iff_of_false (by norm_num) ?_
      intro hall
      obtain ⟨a, ha, hhigh⟩ := List.any_eq_true.mp h
      exact hall a ha (by simpa using hhigh)
    · refine iff_of_true rfl ?_
      intro a ha hhigh
      exact h (List.any_eq_true.mpr ⟨a, ha, by simpa using hhigh⟩)

/-- Witness for C8 on concrete runs of both engines: the risk run with
one untested file with three global mutations exits 1, the score run
without `--ci` exits 0. -/
theorem exit_code_gate_witness :
    Score.mainExitCode false none none
        ⟨fun _ => none, fun _ => false, fun _ => ⟨[], 0, 0, 0⟩,
          fun _ => ⟨[], 0, 0, 0⟩⟩ ["proj"] [⟨[], "a.ts"⟩] = 0 ∧
    Risk.riskExitCode (Risk.analyzeFiles
        ⟨fun _ => [], fun _ => [],
          fun _ => [⟨"a", 1⟩, ⟨"b", 2⟩, ⟨"c", 3⟩], fun _ => 0,
          fun _ => ⟨false, 0⟩, id, fun _ => none⟩ ["risky.ts"]) = 1 :=
  ⟨Or.resolve_right
    (exit_code_gate false none none
      ⟨fun _ => none, fun _ => false, fun _ => ⟨[], 0, 0, 0⟩,
        fun _ => ⟨[], 0, 0, 0⟩⟩ ["proj"] [⟨[], "a.ts"⟩]
      ⟨fun _ => [], fun _ => [],
        fun _ => [⟨"a", 1⟩, ⟨"b", 2⟩, ⟨"c", 3⟩], fun _ => 0,
        fun _ => ⟨false, 0⟩, id, fun _ => none⟩ ["risky.ts"]).1
    (by simp [Score.mainExitCode]),
   ((exit_code_gate false none none
      ⟨fun _ => none, fun _ => false, fun _ => ⟨[], 0, 0, 0⟩,
        fun _ => ⟨[], 0, 0, 0⟩⟩ ["proj"] [⟨[], "a.ts"⟩]
      ⟨fun _ => [], fun _ => [],
        fun _ => [⟨"a", 1⟩, ⟨"b", 2⟩, ⟨"c", 3⟩], fun _ => 0,
        fun _ => ⟨false, 0⟩, id, fun _ => none⟩ ["risky.ts"]).2.2.1).mpr
    (by decide)⟩

end AiReady
